import Mathlib

/-!
Shallow embedding of the service worker in sw.js (pangram_aid_webapp).

The file sw.js contains two concatenated revisions of the same worker.
The first revision (lines 1-64) declares CACHE_VER = pangram-aid-v4,
a five-asset core set, an install handler (caches.open + addAll +
skipWaiting), an activate handler (delete every cache whose name differs
from CACHE_VER), and a fetch handler that is network-first for pathnames
ending in /config.json and cache-first (with ignoreSearch) otherwise,
guarded by a same-origin check.  The second revision (lines 65-120)
declares CACHE_VER = pangram-aid-v3 and a fetch handler with no origin
guard before respondWith, an exact-URL cache match, and a fallback
config response whose Content-Type lacks the charset parameter.

Requests are modelled by their URL components (origin, pathname, search),
method and mode; responses by body, status, statusText and header list.
The Cache Storage area is a list of named stores, each an association
list from URL keys to responses, reflecting the host Cache API:
caches.open creates a store if absent, caches.match scans stores in
order (matching only GET requests, optionally ignoring the query
string), and Cache.put rejects non-GET requests (per the Cache API,
put with a request whose method is not GET returns a rejected promise,
so no entry is ever stored; in sw.js the put calls are not awaited, so
such a rejection is unobserved by the handler).  The network is an
oracle from requests to an optional response; none models a rejected
fetch (the code's catch branch).
-/

/-- A request, reduced to the fields sw.js inspects: URL origin,
pathname and query string, HTTP method, and request mode. -/
structure Request where
  origin : String
  pathname : String
  search : String
  method : String
  mode : String
deriving DecidableEq, Repr

/-- A response, reduced to the fields the spec constrains: body text,
status, status text and header list. -/
structure Response where
  body : String
  status : Nat
  statusText : String
  headers : List (String × String)
deriving DecidableEq, Repr

/-- The URL component of a request, used as the cache key (only GET
entries are ever stored, so the method is not part of the key). -/
structure URLKey where
  origin : String
  pathname : String
  search : String
deriving DecidableEq, Repr

def Request.urlKey (r : Request) : URLKey :=
  ⟨r.origin, r.pathname, r.search⟩

/-- One named cache: an association list from URL keys to responses,
in insertion order. -/
abbrev CacheStore := List (URLKey × Response)

/-- The Cache Storage area: named stores in creation order
(the order caches.keys and caches.match traverse). -/
abbrev CacheStorage := List (String × CacheStore)

/-- String constants used by sw.js (bound as definitions so every use
site is a plain name). -/
def GETs : String := "GET"

def navigateMode : String := "navigate"

def configSuffix : String := "/config.json"

def emptyStr : String := ""

/-- CACHE_VER of the first revision (sw.js line 2). -/
def CACHE_VER : String := "pangram-aid-v4"

/-- CACHE_VER of the second revision (sw.js line 67). -/
def CACHE_VER2 : String := "pangram-aid-v3"

/-- Executable suffix test on strings, modelling the JavaScript
String.prototype.endsWith call on url.pathname. -/
def pathEndsWith (s post : String) : Bool :=
  decide (s.data.drop (s.data.length - post.data.length) = post.data)

/-- Resolution of the relative core-asset paths against the worker's
scope (the origin root): a leading dot-slash collapses onto the root. -/
def resolvePath (s : String) : String :=
  match s.data with
  | '.' :: '/' :: rest => String.mk ('/' :: rest)
  | _ => s

/-- CORE_ASSETS of the first revision (sw.js line 3). -/
def CORE_ASSETS : List String := ["/", "./", "./index.html", "./config.json", "./sw.js"]

/-- Does a store with this name exist (caches.has / the lookup side of
caches.open)? -/
def hasCache : CacheStorage → String → Bool
  | [], _ => false
  | c :: rest, n => decide (c.1 = n) || hasCache rest n

/-- The contents of the named store (empty when absent). -/
def getStore : CacheStorage → String → CacheStore
  | [], _ => []
  | c :: rest, n => if c.1 = n then c.2 else getStore rest n

/-- caches.open: create the named store if it does not exist yet. -/
def ensureOpen (st : CacheStorage) (n : String) : CacheStorage :=
  if hasCache st n then st else st ++ [(n, [])]

/-- Replace the contents of the named store. -/
def updateStore : CacheStorage → String → (CacheStore → CacheStore) → CacheStorage
  | [], _, _ => []
  | c :: rest, n, f => if c.1 = n then (c.1, f c.2) :: rest else c :: updateStore rest n f

/-- Cache.put on one store: per the Cache API, put first deletes every
entry whose URL equals the request URL (query string included), then
appends the new entry. -/
def storePut (s : CacheStore) (k : URLKey) (r : Response) : CacheStore :=
  s.filter (fun e => !decide (e.1 = k)) ++ [(k, r)]

/-- Cache.put through the storage area.  The Cache API rejects put for
a request whose method is not GET, so no entry is stored then; sw.js
never awaits its put calls, so the rejection is swallowed. -/
def cachePut (st : CacheStorage) (n : String) (req : Request) (resp : Response) : CacheStorage :=
  if req.method = GETs then updateStore st n (fun s => storePut s req.urlKey resp) else st

/-- Match inside one store: first entry whose origin and pathname equal
the request's, and whose query string equals the request's unless
ignoreSearch is set. -/
def storeMatch (s : CacheStore) (req : Request) (ign : Bool) : Option Response :=
  match s with
  | [] => none
  | e :: rest =>
    if e.1.origin = req.origin ∧ e.1.pathname = req.pathname ∧ (ign = true ∨ e.1.search = req.search)
    then some e.2 else storeMatch rest req ign

/-- caches.match scanning every store in order. -/
def cachesMatchAux : CacheStorage → Request → Bool → Option Response
  | [], _, _ => none
  | c :: rest, req, ign =>
    match storeMatch c.2 req ign with
    | some r => some r
    | none => cachesMatchAux rest req ign

/-- caches.match: a request whose method is not GET never matches
(sw.js never passes ignoreMethod). -/
def cachesMatch (st : CacheStorage) (req : Request) (ign : Bool) : Option Response :=
  if req.method = GETs then cachesMatchAux st req ign else none

/-- The JSON body of the synthesized default config response
(both revisions). -/
def configBody : String := "\x7b\"letters\":\"\",\"locale\":\"pl-PL\"\x7d"

def contentTypeKey : String := "Content-Type"

/-- Content type of the first revision's default config response
(sw.js line 39). -/
def jsonCT : String := "application/json; charset=utf-8"

/-- Content type of the second revision's default config response
(sw.js line 99): no charset parameter. -/
def jsonCTplain : String := "application/json"

/-- new Response with a body and headers only: status 200, empty
status text. -/
def defaultConfigResponse : Response :=
  ⟨configBody, 200, emptyStr, [(contentTypeKey, jsonCT)]⟩

def defaultConfigResponse2 : Response :=
  ⟨configBody, 200, emptyStr, [(contentTypeKey, jsonCTplain)]⟩

def offlineBody : String := "Offline"

/-- new Response of the synthetic unavailable reply (sw.js line 61 and
line 117): status 503, statusText Offline. -/
def offlineResponse : Response :=
  ⟨offlineBody, 503, offlineBody, []⟩

def indexPath : String := "/index.html"

/-- The request the string argument of caches.match in the navigation
fallback denotes: GET of ./index.html resolved against the worker's
scope. -/
def indexRequest (selfOrigin : String) : Request :=
  ⟨selfOrigin, indexPath, emptyStr, GETs, emptyStr⟩

/-- Outcome of dispatching one fetch event: either the handler returned
without calling respondWith (the browser proceeds as usual), or it
responded with a response. -/
inductive FetchResult
  | passthrough
  | respond (r : Response)
deriving DecidableEq, Repr

/-- Result of one fetch-event dispatch: the respondWith outcome, the
cache storage afterwards, and whether the handler invoked fetch at
all (successfully or not). -/
structure HandleOut where
  result : FetchResult
  caches : CacheStorage
  networkUsed : Bool
deriving DecidableEq

/-- Fetch handler of the first revision (sw.js lines 21-64).
Same-origin guard; network-first for pathnames ending in /config.json
(put the fresh response — the platform put stores it only for GET —
and return it; on fetch failure fall back to caches.match, then to the
default config response); cache-first with ignoreSearch otherwise (on
miss fetch, put only when request.method is GET, and on fetch failure
fall back to the cached ./index.html for navigation-mode requests,
else a synthetic 503 Offline response). -/
def handleFetch (selfOrigin : String) (net : Request → Option Response)
    (st : CacheStorage) (request : Request) : HandleOut :=
  if request.origin = selfOrigin then
    if pathEndsWith request.pathname configSuffix = true then
      match net request with
      | some fresh =>
        ⟨.respond fresh, cachePut (ensureOpen st CACHE_VER) CACHE_VER request fresh, true⟩
      | none =>
        match cachesMatch st request false with
        | some cached => ⟨.respond cached, st, true⟩
        | none => ⟨.respond defaultConfigResponse, st, true⟩
    else
      match cachesMatch st request true with
      | some cached => ⟨.respond cached, st, false⟩
      | none =>
        match net request with
        | some netResp =>
          let st1 := ensureOpen st CACHE_VER
          let st2 := if request.method = GETs then cachePut st1 CACHE_VER request netResp else st1
          ⟨.respond netResp, st2, true⟩
        | none =>
          if request.mode = navigateMode then
            match cachesMatch st (indexRequest selfOrigin) false with
            | some offline => ⟨.respond offline, st, true⟩
            | none => ⟨.respond offlineResponse, st, true⟩
          else ⟨.respond offlineResponse, st, true⟩
  else ⟨.passthrough, st, false⟩

/-- Fetch handler of the second revision (sw.js lines 86-120).  No
origin guard: every request is answered.  Network-first for pathnames
ending in /config.json with the charset-less default; exact-URL
cache-first otherwise, the put guarded by GET and same-origin; in the
catch branch the earlier cached binding is still empty (the miss
branch was taken), so the 503 response is returned. -/
def handleFetch2 (selfOrigin : String) (net : Request → Option Response)
    (st : CacheStorage) (request : Request) : HandleOut :=
  if pathEndsWith request.pathname configSuffix = true then
    match net request with
    | some fresh =>
      ⟨.respond fresh, cachePut (ensureOpen st CACHE_VER2) CACHE_VER2 request fresh, true⟩
    | none =>
      match cachesMatch st request false with
      | some cached => ⟨.respond cached, st, true⟩
      | none => ⟨.respond defaultConfigResponse2, st, true⟩
  else
    match cachesMatch st request false with
    | some cached => ⟨.respond cached, st, false⟩
    | none =>
      match net request with
      | some netResp =>
        let st1 := ensureOpen st CACHE_VER2
        let st2 := if request.method = GETs ∧ request.origin = selfOrigin
                   then cachePut st1 CACHE_VER2 request netResp else st1
        ⟨.respond netResp, st2, true⟩
      | none => ⟨.respond offlineResponse, st, true⟩

/-- Activate handler of the first revision (sw.js lines 13-19): delete
every cache whose name differs from CACHE_VER (clients.claim has no
effect on the storage area). -/
def activate (st : CacheStorage) : CacheStorage :=
  st.filter (fun c => decide (c.1 = CACHE_VER))

/-- The names of the existing stores, in order (caches.keys). -/
def cacheNames (st : CacheStorage) : List String :=
  st.map Prod.fst

/-- The GET request addAll issues for one core-asset path. -/
def assetRequest (selfOrigin : String) (path : String) : Request :=
  ⟨selfOrigin, resolvePath path, emptyStr, GETs, emptyStr⟩

/-- Is the status an ok status (addAll rejects non-ok responses)? -/
def okStatus (r : Response) : Bool :=
  decide (200 ≤ r.status) && decide (r.status < 300)

/-- The fetch phase of Cache.addAll: fetch every listed asset; the
whole call fails if any fetch rejects or yields a non-ok response, and
only then are the puts applied (addAll is atomic). -/
def fetchAll (net : Request → Option Response) (selfOrigin : String) :
    List String → Option (List (String × Response))
  | [] => some []
  | a :: rest =>
    match net (assetRequest selfOrigin a) with
    | some r =>
      if okStatus r = true then (fetchAll net selfOrigin rest).map (fun l => (a, r) :: l)
      else none
    | none => none

/-- Result of the install handler: the cache storage afterwards,
whether skipWaiting ran, and whether the deferred work (waitUntil)
failed. -/
structure InstallOut where
  caches : CacheStorage
  skipWaitingCalled : Bool
  failed : Bool
deriving DecidableEq

/-- Install handler of the first revision (sw.js lines 5-11):
caches.open(CACHE_VER), then await addAll(CORE_ASSETS), then await
skipWaiting.  When addAll rejects, the awaited rejection aborts the
async function before skipWaiting, and waitUntil sees a rejected
promise: the install fails with only the open side effect applied. -/
def install (selfOrigin : String) (net : Request → Option Response)
    (st : CacheStorage) : InstallOut :=
  let st1 := ensureOpen st CACHE_VER
  match fetchAll net selfOrigin CORE_ASSETS with
  | some pairs =>
    ⟨pairs.foldl (fun s p => cachePut s CACHE_VER (assetRequest selfOrigin p.1) p.2) st1,
     true, false⟩
  | none => ⟨st1, false, true⟩

/-- First header with the given name, viewed as the response's declared
content type when the name is Content-Type. -/
def headerValue : List (String × String) → String → Option String
  | [], _ => none
  | h :: rest, k => if h.1 = k then some h.2 else headerValue rest k

/-- The responses stored under a given URL key, across all stores in
order.  An entry for a request means an entry whose key equals the
request's URL. -/
def entriesFor (st : CacheStorage) (u : URLKey) : List Response :=
  st.foldr (fun c acc => (c.2.filter (fun e => decide (e.1 = u))).map Prod.snd ++ acc) []

/-- A response that is physically present in some store of the storage
area. -/
def isStoredIn (st : CacheStorage) (r : Response) : Prop :=
  ∃ c ∈ st, ∃ e ∈ c.2, e.2 = r

/-- Concrete fixtures used by the witness and counterexample theorems. -/
def originA : String := "https://pangram.example"

def originB : String := "https://evil.example"

def respNet : Response := ⟨"NETBODY", 200, emptyStr, []⟩

def respStored : Response := ⟨"STOREDBODY", 200, emptyStr, []⟩

def respIndex : Response := ⟨"INDEXBODY", 200, emptyStr, []⟩

/-- A network on which every fetch succeeds with respNet. -/
def netAlways : Request → Option Response := fun _ => some respNet

/-- A network on which every fetch rejects. -/
def netFail : Request → Option Response := fun _ => none

def appJsPath : String := "/app.js"

def configPath : String := "/config.json"

def queryV1 : String := "v=1"

def postMethod : String := "POST"

def pageAPath : String := "/page"

def idxAsset : String := "./index.html"

/-- A network that rejects exactly the fetch of /index.html. -/
def netIndexFails : Request → Option Response :=
  fun r => if r.pathname = indexPath then none else some respNet

theorem entriesFor_append_empty (st : CacheStorage) (n : String) (u : URLKey) :
    entriesFor (st ++ [(n, [])]) u = entriesFor st u := by
  induction st with
  | nil => rfl
  | cons c rest ih => simp [entriesFor, List.foldr_append] at ih ⊢

theorem entriesFor_ensureOpen (st : CacheStorage) (n : String) (u : URLKey) :
    entriesFor (ensureOpen st n) u = entriesFor st u := by
  unfold ensureOpen
  split
  · rfl
  · exact entriesFor_append_empty st n u

theorem cachePut_nonget (st : CacheStorage) (n : String) (req : Request) (resp : Response)
    (h : ¬req.method = GETs) : cachePut st n req resp = st := by
  simp [cachePut, h]

theorem storeMatch_mem (s : CacheStore) (req : Request) (ign : Bool) (r : Response)
    (h : storeMatch s req ign = some r) : ∃ e ∈ s, e.2 = r := by
  induction s with
  | nil => simp [storeMatch] at h
  | cons e rest ih =>
    rw [storeMatch] at h
    split at h
    · exact ⟨e, List.mem_cons_self e rest, by injection h⟩
    · obtain ⟨e2, hm, he⟩ := ih h
      exact ⟨e2, List.mem_cons_of_mem e hm, he⟩

theorem cachesMatchAux_stored (st : CacheStorage) (req : Request) (ign : Bool) (r : Response)
    (h : cachesMatchAux st req ign = some r) : isStoredIn st r := by
  induction st with
  | nil => simp [cachesMatchAux] at h
  | cons c rest ih =>
    rw [cachesMatchAux] at h
    cases hm : storeMatch c.2 req ign with
    | some r2 =>
      rw [hm] at h
      obtain ⟨e, he, hr⟩ := storeMatch_mem c.2 req ign r2 hm
      exact ⟨c, List.mem_cons_self c rest, e, he, by injection h with h2; rw [h2] at hr; exact hr⟩
    | none =>
      rw [hm] at h
      obtain ⟨c2, hc, hrest⟩ := ih h
      exact ⟨c2, List.mem_cons_of_mem c hc, hrest⟩

theorem cachesMatch_stored (st : CacheStorage) (req : Request) (ign : Bool) (r : Response)
    (h : cachesMatch st req ign = some r) : isStoredIn st r := by
  unfold cachesMatch at h
  split at h
  · exact cachesMatchAux_stored st req ign r h
  · simp at h

theorem storeMatch_append (s1 s2 : CacheStore) (req : Request) (ign : Bool) :
    storeMatch (s1 ++ s2) req ign =
      match storeMatch s1 req ign with
      | some r => some r
      | none => storeMatch s2 req ign := by
  induction s1 with
  | nil => simp [storeMatch]
  | cons e rest ih =>
    rw [List.cons_append, storeMatch, storeMatch]
    split
    · rfl
    · exact ih

theorem storeMatch_filter_key (s : CacheStore) (req : Request) :
    storeMatch (s.filter (fun e => !decide (e.1 = req.urlKey))) req false = none := by
  induction s with
  | nil => rfl
  | cons e rest ih =>
    obtain ⟨⟨o, p, s3⟩, v⟩ := e
    rw [List.filter_cons]
    split
    · rename_i hkeep
      rw [storeMatch]
      split
      · rename_i hcond
        exfalso
        obtain ⟨h1, h2, h3⟩ := hcond
        rcases h3 with h3 | h3
        · simp at h3
        · simp only [Request.urlKey] at hkeep
          simp only at h1 h2 h3
          subst h1
          subst h2
          subst h3
          simp at hkeep
      · exact ih
    · exact ih

theorem storeMatch_storePut_self (s : CacheStore) (req : Request) (r : Response) :
    storeMatch (storePut s req.urlKey r) req false = some r := by
  unfold storePut
  rw [storeMatch_append, storeMatch_filter_key]
  simp [storeMatch, Request.urlKey]

theorem hasCache_append_self (st : CacheStorage) (n : String) (s : CacheStore) :
    hasCache (st ++ [(n, s)]) n = true := by
  induction st with
  | nil => simp [hasCache]
  | cons c rest ih => simp [hasCache, ih]

theorem hasCache_ensureOpen (st : CacheStorage) (n : String) :
    hasCache (ensureOpen st n) n = true := by
  unfold ensureOpen
  split
  · assumption
  · exact hasCache_append_self st n []

theorem getStore_updateStore (st : CacheStorage) (n : String) (f : CacheStore → CacheStore)
    (h : hasCache st n = true) : getStore (updateStore st n f) n = f (getStore st n) := by
  induction st with
  | nil => simp [hasCache] at h
  | cons c rest ih =>
    rw [updateStore]
    by_cases hc : c.1 = n
    · simp [getStore, hc]
    · rw [if_neg hc, getStore, getStore, if_neg hc, if_neg hc]
      rw [hasCache] at h
      simp [hc] at h
      exact ih h

theorem storeMatch_search_irrel (s : CacheStore) (req : Request) (s2 : String) :
    storeMatch s { req with search := s2 } true = storeMatch s req true := by
  induction s with
  | nil => rfl
  | cons e rest ih =>
    rw [storeMatch, storeMatch]
    by_cases h1 : e.1.origin = req.origin <;> by_cases h2 : e.1.pathname = req.pathname <;>
      simp [h1, h2, ih]

theorem cachesMatchAux_search_irrel (st : CacheStorage) (req : Request) (s2 : String) :
    cachesMatchAux st { req with search := s2 } true = cachesMatchAux st req true := by
  induction st with
  | nil => rfl
  | cons c rest ih =>
    rw [cachesMatchAux, cachesMatchAux, storeMatch_search_irrel]
    split <;> simp [ih]

/-- The cache-first lookup with ignoreSearch is independent of the
request's query string. -/
theorem cachesMatch_search_irrel (st : CacheStorage) (req : Request) (s2 : String) :
    cachesMatch st { req with search := s2 } true = cachesMatch st req true := by
  unfold cachesMatch
  rw [cachesMatchAux_search_irrel]

theorem fetchAll_none (net : Request → Option Response) (selfOrigin : String)
    (l : List String) (a : String) (ha : a ∈ l)
    (hf : net (assetRequest selfOrigin a) = none) :
    fetchAll net selfOrigin l = none := by
  induction l with
  | nil => simp at ha
  | cons b rest ih =>
    rw [fetchAll]
    rcases List.mem_cons.mp ha with hab | ha2
    · subst hab
      rw [hf]
    · rw [ih ha2]
      cases net (assetRequest selfOrigin b) with
      | none => rfl
      | some r => split <;> simp

/-- C1: for every same-origin request whose method is not GET, handling
the fetch (first revision) never writes an entry for that request into
the cache store, regardless of the network outcome, on both the
network-first config.json path (where the platform Cache.put rejects
non-GET requests) and the cache-first path (where the put is guarded by
request.method): the responses stored under the request's URL are
unchanged. -/
theorem nonget_never_cached (selfOrigin : String) (net : Request → Option Response)
    (st : CacheStorage) (request : Request)
    (h1 : request.origin = selfOrigin) (h2 : ¬request.method = GETs) :
    entriesFor (handleFetch selfOrigin net st request).caches request.urlKey =
      entriesFor st request.urlKey := by
  unfold handleFetch
  rw [if_pos h1]
  by_cases hp : pathEndsWith request.pathname configSuffix = true
  · rw [if_pos hp]
    cases hn : net request with
    | some fresh => simp [cachePut, h2, entriesFor_ensureOpen]
    | none =>
      cases hc : cachesMatch st request false with
      | some cached => simp
      | none => simp
  · rw [if_neg hp]
    have hcm : cachesMatch st request true = none := by simp [cachesMatch, h2]
    rw [hcm]
    cases hn : net request with
    | some netResp => simp [h2, entriesFor_ensureOpen]
    | none =>
      by_cases hm : request.mode = navigateMode
      · rw [if_pos hm]
        cases hc : cachesMatch st (indexRequest selfOrigin) false <;> simp
      · rw [if_neg hm]

/-- C1 witness: a same-origin POST to the config path on a succeeding
network leaves the entries for that URL empty. -/
theorem nonget_never_cached_witness :
    (⟨originA, configPath, emptyStr, postMethod, emptyStr⟩ : Request).origin = originA ∧
    ¬(⟨originA, configPath, emptyStr, postMethod, emptyStr⟩ : Request).method = GETs ∧
    entriesFor (handleFetch originA netAlways []
        ⟨originA, configPath, emptyStr, postMethod, emptyStr⟩).caches
        (⟨originA, configPath, emptyStr, postMethod, emptyStr⟩ : Request).urlKey =
      entriesFor [] (⟨originA, configPath, emptyStr, postMethod, emptyStr⟩ : Request).urlKey :=
  ⟨rfl, by decide,
    nonget_never_cached originA netAlways [] ⟨originA, configPath, emptyStr, postMethod, emptyStr⟩
      rfl (by decide)⟩

/-- C2: after the activate handler completes, every cache-generation
name that existed before and differs from CACHE_VER no longer exists,
and (given that the current generation existed before activation, which
the preceding install guarantees by opening it) the current generation
is the only remaining one. -/
theorem activate_prunes_generations (st : CacheStorage)
    (h : CACHE_VER ∈ cacheNames st) :
    (∀ k ∈ cacheNames st, k ≠ CACHE_VER → k ∉ cacheNames (activate st)) ∧
    (∀ k, k ∈ cacheNames (activate st) ↔ k = CACHE_VER) := by
  have hmem : ∀ k, k ∈ cacheNames (activate st) ↔ (∃ c ∈ st, c.1 = CACHE_VER ∧ c.1 = k) := by
    intro k
    simp [cacheNames, activate, List.mem_map, List.mem_filter, and_assoc]
  constructor
  · intro k _ hk hc
    rcases (hmem k).mp hc with ⟨c, _, hev, hck⟩
    exact hk (by rw [← hck, hev])
  · intro k
    constructor
    · intro hc
      rcases (hmem k).mp hc with ⟨c, _, hev, hck⟩
      rw [← hck, hev]
    · intro hk
      subst hk
      rcases List.mem_map.mp h with ⟨c, hcst, hcv⟩
      exact (hmem CACHE_VER).mpr ⟨c, hcst, hcv, hcv⟩

/-- C2 witness: activating over the storage holding the old and the new
generation leaves exactly the new one. -/
theorem activate_prunes_generations_witness :
    (∀ k ∈ cacheNames [(CACHE_VER2, ([] : CacheStore)), (CACHE_VER, ([] : CacheStore))],
      k ≠ CACHE_VER →
        k ∉ cacheNames (activate [(CACHE_VER2, ([] : CacheStore)), (CACHE_VER, ([] : CacheStore))])) ∧
    (∀ k, k ∈ cacheNames (activate [(CACHE_VER2, ([] : CacheStore)), (CACHE_VER, ([] : CacheStore))])
      ↔ k = CACHE_VER) :=
  activate_prunes_generations [(CACHE_VER2, []), (CACHE_VER, [])] (by decide)

/-- C3: a same-origin GET to a static path (not ending in /config.json)
whose entry is present in the cache returns exactly the stored response,
leaves the storage unchanged, and performs no network fetch. -/
theorem cache_first_hit (selfOrigin : String) (net : Request → Option Response)
    (st : CacheStorage) (request : Request) (resp : Response)
    (h1 : request.origin = selfOrigin) (_h2 : request.method = GETs)
    (h3 : pathEndsWith request.pathname configSuffix = false)
    (h4 : cachesMatch st request true = some resp) :
    handleFetch selfOrigin net st request = ⟨.respond resp, st, false⟩ := by
  unfold handleFetch
  rw [if_pos h1, h3]
  simp [h4]

/-- C3 witness: a GET for /app.js stored in the current generation is
answered from the cache with no network use. -/
theorem cache_first_hit_witness :
    cachesMatch [(CACHE_VER, [(⟨originA, appJsPath, emptyStr⟩, respStored)])]
        ⟨originA, appJsPath, emptyStr, GETs, emptyStr⟩ true = some respStored ∧
    handleFetch originA netAlways [(CACHE_VER, [(⟨originA, appJsPath, emptyStr⟩, respStored)])]
        ⟨originA, appJsPath, emptyStr, GETs, emptyStr⟩ =
      ⟨.respond respStored, [(CACHE_VER, [(⟨originA, appJsPath, emptyStr⟩, respStored)])], false⟩ :=
  ⟨by decide,
    cache_first_hit originA netAlways [(CACHE_VER, [(⟨originA, appJsPath, emptyStr⟩, respStored)])]
      ⟨originA, appJsPath, emptyStr, GETs, emptyStr⟩ respStored rfl rfl (by decide) (by decide)⟩

/-- C4: for a same-origin GET to a config path, when the network fetch
succeeds the handler responds with the live network response, and
afterwards the current generation's store contains an entry for that
request (exact URL) equal to that response. -/
theorem network_first_success (selfOrigin : String) (net : Request → Option Response)
    (st : CacheStorage) (request : Request) (fresh : Response)
    (h1 : request.origin = selfOrigin) (h2 : request.method = GETs)
    (h3 : pathEndsWith request.pathname configSuffix = true)
    (h4 : net request = some fresh) :
    (handleFetch selfOrigin net st request).result = .respond fresh ∧
    storeMatch (getStore (handleFetch selfOrigin net st request).caches CACHE_VER)
        request false = some fresh := by
  unfold handleFetch
  rw [if_pos h1, if_pos h3, h4]
  refine ⟨rfl, ?_⟩
  show storeMatch (getStore (cachePut (ensureOpen st CACHE_VER) CACHE_VER request fresh) CACHE_VER)
      request false = some fresh
  rw [cachePut, if_pos h2,
    getStore_updateStore (ensureOpen st CACHE_VER) CACHE_VER _ (hasCache_ensureOpen st CACHE_VER)]
  exact storeMatch_storePut_self _ request fresh

/-- C4 witness: a GET for /config.json over a succeeding network is
answered with the network response and the entry lands in the current
generation's store. -/
theorem network_first_success_witness :
    netAlways (⟨originA, configPath, emptyStr, GETs, emptyStr⟩ : Request) = some respNet ∧
    (handleFetch originA netAlways [] ⟨originA, configPath, emptyStr, GETs, emptyStr⟩).result =
      .respond respNet ∧
    storeMatch (getStore (handleFetch originA netAlways []
          ⟨originA, configPath, emptyStr, GETs, emptyStr⟩).caches CACHE_VER)
        ⟨originA, configPath, emptyStr, GETs, emptyStr⟩ false = some respNet :=
  ⟨rfl, network_first_success originA netAlways [] ⟨originA, configPath, emptyStr, GETs, emptyStr⟩
    respNet rfl rfl (by decide) rfl⟩

/-- C5 counterexample: the claim asserts the fallback config response
carries content-type application/json with charset=utf-8, but the
second revision's fetch handler (one of the two fetch handlers the
sources of the claim cite) synthesizes it with plain application/json:
at a same-origin GET for /config.json with a failing network and an
empty cache the returned content type differs from the claimed one. -/
theorem config_fallback_charset_counterexample :
    (handleFetch2 originA netFail [] ⟨originA, configPath, emptyStr, GETs, emptyStr⟩).result =
      .respond defaultConfigResponse2 ∧
    headerValue defaultConfigResponse2.headers contentTypeKey = some jsonCTplain ∧
    ¬jsonCTplain = jsonCT := by
  refine ⟨by decide, by decide, by decide⟩

/-- C5 amended: for a same-origin GET to the configuration path with a
failing network and no prior cache entry, the first revision returns
exactly the default body with content-type application/json;
charset=utf-8, while the second revision returns the same body with
content-type application/json (without the charset parameter). -/
theorem config_fallback_default (selfOrigin : String) (net : Request → Option Response)
    (st : CacheStorage) (request : Request)
    (h1 : request.origin = selfOrigin) (_h2 : request.method = GETs)
    (h3 : pathEndsWith request.pathname configSuffix = true)
    (h4 : net request = none) (h5 : cachesMatch st request false = none) :
    (handleFetch selfOrigin net st request).result = .respond defaultConfigResponse ∧
    defaultConfigResponse.body = configBody ∧
    headerValue defaultConfigResponse.headers contentTypeKey = some jsonCT ∧
    (handleFetch2 selfOrigin net st request).result = .respond defaultConfigResponse2 ∧
    defaultConfigResponse2.body = configBody ∧
    headerValue defaultConfigResponse2.headers contentTypeKey = some jsonCTplain := by
  refine ⟨?_, rfl, by decide, ?_, rfl, by decide⟩
  · unfold handleFetch
    rw [if_pos h1, if_pos h3, h4, h5]
  · unfold handleFetch2
    rw [if_pos h3, h4, h5]

/-- C5 witness: the amended statement at a concrete same-origin GET for
/config.json, failing network, empty cache. -/
theorem config_fallback_default_witness :
    netFail (⟨originA, configPath, emptyStr, GETs, emptyStr⟩ : Request) = none ∧
    cachesMatch [] ⟨originA, configPath, emptyStr, GETs, emptyStr⟩ false = none ∧
    ((handleFetch originA netFail [] ⟨originA, configPath, emptyStr, GETs, emptyStr⟩).result =
        .respond defaultConfigResponse ∧
      defaultConfigResponse.body = configBody ∧
      headerValue defaultConfigResponse.headers contentTypeKey = some jsonCT ∧
      (handleFetch2 originA netFail [] ⟨originA, configPath, emptyStr, GETs, emptyStr⟩).result =
        .respond defaultConfigResponse2 ∧
      defaultConfigResponse2.body = configBody ∧
      headerValue defaultConfigResponse2.headers contentTypeKey = some jsonCTplain) :=
  ⟨rfl, by decide,
    config_fallback_default originA netFail [] ⟨originA, configPath, emptyStr, GETs, emptyStr⟩
      rfl rfl (by decide) rfl (by decide)⟩

/-- C6: when the network rejects every fetch, the first revision's
handler still responds to every same-origin request, and the response
is the synthetic 503 Offline response, the synthesized config default,
or a response physically stored in the cache (which covers both the
per-request entry and the cached root document): failures are never
propagated to the caller. -/
theorem network_failure_recovered (selfOrigin : String) (net : Request → Option Response)
    (st : CacheStorage) (request : Request)
    (h1 : request.origin = selfOrigin) (h2 : net request = none) :
    ∃ r, (handleFetch selfOrigin net st request).result = .respond r ∧
      (r = offlineResponse ∨ r = defaultConfigResponse ∨ isStoredIn st r) := by
  unfold handleFetch
  rw [if_pos h1]
  by_cases hp : pathEndsWith request.pathname configSuffix = true
  · rw [if_pos hp, h2]
    cases hc : cachesMatch st request false with
    | some cached =>
      exact ⟨cached, rfl, Or.inr (Or.inr (cachesMatch_stored st request false cached hc))⟩
    | none => exact ⟨defaultConfigResponse, rfl, Or.inr (Or.inl rfl)⟩
  · rw [if_neg hp]
    cases hc : cachesMatch st request true with
    | some cached =>
      exact ⟨cached, rfl, Or.inr (Or.inr (cachesMatch_stored st request true cached hc))⟩
    | none =>
      rw [h2]
      by_cases hm : request.mode = navigateMode
      · rw [if_pos hm]
        cases hi : cachesMatch st (indexRequest selfOrigin) false with
        | some offline =>
          exact ⟨offline, rfl,
            Or.inr (Or.inr (cachesMatch_stored st (indexRequest selfOrigin) false offline hi))⟩
        | none => exact ⟨offlineResponse, rfl, Or.inl rfl⟩
      · rw [if_neg hm]
        exact ⟨offlineResponse, rfl, Or.inl rfl⟩

/-- C6 witness: a same-origin GET for /app.js with an empty cache and a
failing network is answered (with the synthetic 503). -/
theorem network_failure_recovered_witness :
    (⟨originA, appJsPath, emptyStr, GETs, emptyStr⟩ : Request).origin = originA ∧
    netFail (⟨originA, appJsPath, emptyStr, GETs, emptyStr⟩ : Request) = none ∧
    ∃ r, (handleFetch originA netFail [] ⟨originA, appJsPath, emptyStr, GETs, emptyStr⟩).result =
        .respond r ∧
      (r = offlineResponse ∨ r = defaultConfigResponse ∨ isStoredIn [] r) :=
  ⟨rfl, rfl,
    network_failure_recovered originA netFail [] ⟨originA, appJsPath, emptyStr, GETs, emptyStr⟩
      rfl rfl⟩

/-- C7 counterexample: the claim quantifies over every same-origin
navigation-mode request, but a navigation to a path ending in
/config.json takes the network-first branch: with a failing network,
no entry for the request, and the root document present in the store,
the handler returns the synthesized config default — not the cached
root document. -/
theorem navigation_fallback_counterexample :
    (⟨originA, configPath, emptyStr, GETs, navigateMode⟩ : Request).mode = navigateMode ∧
    netFail (⟨originA, configPath, emptyStr, GETs, navigateMode⟩ : Request) = none ∧
    cachesMatch [(CACHE_VER, [(⟨originA, indexPath, emptyStr⟩, respIndex)])]
        ⟨originA, configPath, emptyStr, GETs, navigateMode⟩ true = none ∧
    cachesMatch [(CACHE_VER, [(⟨originA, indexPath, emptyStr⟩, respIndex)])]
        (indexRequest originA) false = some respIndex ∧
    (handleFetch originA netFail [(CACHE_VER, [(⟨originA, indexPath, emptyStr⟩, respIndex)])]
        ⟨originA, configPath, emptyStr, GETs, navigateMode⟩).result =
      .respond defaultConfigResponse ∧
    ¬defaultConfigResponse = respIndex := by
  refine ⟨rfl, rfl, by decide, by decide, by decide, by decide⟩

/-- C7 amended: for every same-origin navigation-mode request to a
static path (not ending in /config.json) whose network fetch fails and
whose own entry is absent, if the root document ./index.html is present
in the store the handler returns that cached root document. -/
theorem navigation_fallback (selfOrigin : String) (net : Request → Option Response)
    (st : CacheStorage) (request : Request) (rootResp : Response)
    (h1 : request.origin = selfOrigin)
    (h2 : pathEndsWith request.pathname configSuffix = false)
    (h3 : net request = none) (h4 : request.mode = navigateMode)
    (h5 : cachesMatch st request true = none)
    (h6 : cachesMatch st (indexRequest selfOrigin) false = some rootResp) :
    handleFetch selfOrigin net st request = ⟨.respond rootResp, st, true⟩ := by
  unfold handleFetch
  rw [if_pos h1, h2]
  simp [h3, h4, h5, h6]

/-- C7 witness: a navigation GET for /page with a failing network and
only the root document cached returns the cached root document. -/
theorem navigation_fallback_witness :
    netFail (⟨originA, pageAPath, emptyStr, GETs, navigateMode⟩ : Request) = none ∧
    cachesMatch [(CACHE_VER, [(⟨originA, indexPath, emptyStr⟩, respIndex)])]
        ⟨originA, pageAPath, emptyStr, GETs, navigateMode⟩ true = none ∧
    handleFetch originA netFail [(CACHE_VER, [(⟨originA, indexPath, emptyStr⟩, respIndex)])]
        ⟨originA, pageAPath, emptyStr, GETs, navigateMode⟩ =
      ⟨.respond respIndex, [(CACHE_VER, [(⟨originA, indexPath, emptyStr⟩, respIndex)])], true⟩ :=
  ⟨rfl, by decide,
    navigation_fallback originA netFail [(CACHE_VER, [(⟨originA, indexPath, emptyStr⟩, respIndex)])]
      ⟨originA, pageAPath, emptyStr, GETs, navigateMode⟩ respIndex rfl (by decide) rfl rfl
      (by decide) (by decide)⟩

/-- C8 counterexample: the claim asserts the fetch interceptor passes
cross-origin requests through untouched, but the second revision's
handler has no origin guard: a cross-origin GET for a /config.json URL
is answered with the network response and its entry is written into
the cache store. -/
theorem cross_origin_counterexample :
    ¬(⟨originB, configPath, emptyStr, GETs, emptyStr⟩ : Request).origin = originA ∧
    (handleFetch2 originA netAlways [] ⟨originB, configPath, emptyStr, GETs, emptyStr⟩).result =
      .respond respNet ∧
    ¬(handleFetch2 originA netAlways [] ⟨originB, configPath, emptyStr, GETs, emptyStr⟩).caches
      = ([] : CacheStorage) := by
  refine ⟨by decide, by decide, by decide⟩

/-- C8 amended: the first revision's fetch handler passes every
cross-origin request through unmodified — no respondWith, no cache
write, no handler-issued network fetch; the second revision answers
requests of any origin (its cache-first branch writes only same-origin
GETs, but its config branch writes entries for any origin). -/
theorem cross_origin_passthrough (selfOrigin : String) (net : Request → Option Response)
    (st : CacheStorage) (request : Request)
    (h : ¬request.origin = selfOrigin) :
    handleFetch selfOrigin net st request = ⟨.passthrough, st, false⟩ := by
  unfold handleFetch
  rw [if_neg h]

/-- C8 witness: a cross-origin GET is passed through by the first
revision's handler. -/
theorem cross_origin_passthrough_witness :
    ¬(⟨originB, appJsPath, emptyStr, GETs, emptyStr⟩ : Request).origin = originA ∧
    handleFetch originA netAlways [] ⟨originB, appJsPath, emptyStr, GETs, emptyStr⟩ =
      ⟨.passthrough, [], false⟩ :=
  ⟨by decide,
    cross_origin_passthrough originA netAlways [] ⟨originB, appJsPath, emptyStr, GETs, emptyStr⟩
      (by decide)⟩

/-- C9 counterexample: the claim asserts the cache-first lookup ignores
query-string differences, but the second revision's handler matches the
exact URL: with /app.js stored without a query and a failing network, a
GET for /app.js?v=1 is a miss and yields the synthetic 503 instead of
the stored response. -/
theorem ignore_search_counterexample :
    cachesMatch [(CACHE_VER2, [(⟨originA, appJsPath, emptyStr⟩, respStored)])]
        ⟨originA, appJsPath, queryV1, GETs, emptyStr⟩ true = some respStored ∧
    (handleFetch2 originA netFail [(CACHE_VER2, [(⟨originA, appJsPath, emptyStr⟩, respStored)])]
        ⟨originA, appJsPath, queryV1, GETs, emptyStr⟩).result = .respond offlineResponse ∧
    ¬offlineResponse = respStored ∧
    (handleFetch2 originA netFail [(CACHE_VER2, [(⟨originA, appJsPath, emptyStr⟩, respStored)])]
        ⟨originA, appJsPath, queryV1, GETs, emptyStr⟩).networkUsed = true := by
  refine ⟨by decide, by decide, by decide, by decide⟩

/-- C9 amended: the first revision's cache-first lookup ignores the
query string entirely: whenever a request hits the store under
ignoreSearch, the same request with any other query string is answered
with that same stored response, with no network fetch. -/
theorem ignore_search_hit (selfOrigin : String) (net : Request → Option Response)
    (st : CacheStorage) (request : Request) (resp : Response) (s2 : String)
    (h1 : request.origin = selfOrigin) (_h2 : request.method = GETs)
    (h3 : pathEndsWith request.pathname configSuffix = false)
    (h4 : cachesMatch st request true = some resp) :
    handleFetch selfOrigin net st { request with search := s2 } =
      ⟨.respond resp, st, false⟩ := by
  unfold handleFetch
  show (if ({ request with search := s2 } : Request).origin = selfOrigin then _ else _) = _
  rw [if_pos (show ({ request with search := s2 } : Request).origin = selfOrigin from h1)]
  have hp : pathEndsWith ({ request with search := s2 } : Request).pathname configSuffix = false :=
    h3
  rw [hp]
  have hm : cachesMatch st { request with search := s2 } true = some resp := by
    rw [cachesMatch_search_irrel st request s2, h4]
  simp [hm]

/-- C9 witness: with /app.js stored without a query, a GET for
/app.js?v=1 hits under the first revision and returns the stored
response without touching the network. -/
theorem ignore_search_hit_witness :
    cachesMatch [(CACHE_VER, [(⟨originA, appJsPath, emptyStr⟩, respStored)])]
        ⟨originA, appJsPath, emptyStr, GETs, emptyStr⟩ true = some respStored ∧
    handleFetch originA netFail [(CACHE_VER, [(⟨originA, appJsPath, emptyStr⟩, respStored)])]
        ⟨originA, appJsPath, queryV1, GETs, emptyStr⟩ =
      ⟨.respond respStored, [(CACHE_VER, [(⟨originA, appJsPath, emptyStr⟩, respStored)])], false⟩ :=
  ⟨by decide,
    ignore_search_hit originA netFail [(CACHE_VER, [(⟨originA, appJsPath, emptyStr⟩, respStored)])]
      ⟨originA, appJsPath, emptyStr, GETs, emptyStr⟩ respStored queryV1 rfl rfl (by decide)
      (by decide)⟩

/-- C10: install-time population is strict: if the network fetch of any
one core asset fails, addAll rejects atomically, the install's deferred
work fails, skipWaiting is not executed, and the storage keeps only the
caches.open side effect (no entry is written). -/
theorem install_strict (selfOrigin : String) (net : Request → Option Response)
    (st : CacheStorage) (a : String) (ha : a ∈ CORE_ASSETS)
    (hf : net (assetRequest selfOrigin a) = none) :
    install selfOrigin net st = ⟨ensureOpen st CACHE_VER, false, true⟩ := by
  unfold install
  rw [fetchAll_none net selfOrigin CORE_ASSETS a ha hf]

/-- C10 witness: a network failing exactly on /index.html makes the
install fail with skipWaiting not called and nothing stored. -/
theorem install_strict_witness :
    idxAsset ∈ CORE_ASSETS ∧
    netIndexFails (assetRequest originA idxAsset) = none ∧
    install originA netIndexFails [] = ⟨[(CACHE_VER, [])], false, true⟩ :=
  ⟨by decide, by decide,
    install_strict originA netIndexFails [] idxAsset (by decide) (by decide)⟩
